import Mathlib

/-!
Shallow embedding of the core logic of the hadoop-ha-dashboard repository:
the cluster monitor (`dashboard/app/api/monitoring.py`) and the failover
manager (`dashboard/app/api/failover.py`).

Modelling conventions:
* Python dict records become Lean structures with the same field names.
* Python ints are `Nat` (all the counts involved are lengths and scores).
* Python float division followed by `int(...)` truncation in the health
  score is modelled as exact rational floor, i.e. `Nat` division
  `(healthy * 15) / total`; float formatting inside message strings is
  abstracted to the integer percentage.
* `timestamp` fields (wall-clock strings) are omitted: no claim depends
  on them and they carry no logic.
* The probe collaborator (`hadoop_client.get_namenode_status` /
  `get_resourcemanager_status`) is modelled as an environment value of
  type `Except String HAStatus`: `.ok` is a returned status record,
  `.error` is a raised exception whose message the code catches.
* `asyncio.sleep` calls carry no logic and are omitted.
-/

namespace Dashboard

/-! ## Monitoring data model (`monitoring.py`, `_collect_metrics` shapes) -/

/-- The `namenode_metrics` / `resourcemanager_metrics` sub-dict built by
`_collect_metrics` (response-time fields omitted: no logic reads them). -/
structure ServiceHAMetrics where
  active_healthy : Bool
  standby_healthy : Bool
  active_state : String
  standby_state : String
deriving DecidableEq, Repr

/-- The `node_metrics` sub-dict built by `_collect_metrics`. -/
structure NodeMetrics where
  total_datanodes : Nat
  healthy_datanodes : Nat
  total_nodemanagers : Nat
  healthy_nodemanagers : Nat
  total_journalnodes : Nat
  healthy_journalnodes : Nat
deriving DecidableEq, Repr

/-- The `service_metrics` sub-dict built by `_collect_metrics`
(response-time fields omitted: no logic reads them). -/
structure ServiceMetrics where
  historyserver_healthy : Bool
  hive_healthy : Bool
deriving DecidableEq, Repr

/-- The fields of the `performance_metrics` sub-dict that the health /
event logic reads. -/
structure PerformanceMetrics where
  total_memory : Nat
  allocated_memory : Nat
  pending_apps : Nat
deriving DecidableEq, Repr

/-- The `cluster_health` dict returned by `_calculate_cluster_health`.
`percentage` is `(health_score / max_score) * 100` with `max_score = 100`,
hence exactly the score. -/
structure ClusterHealth where
  score : Nat
  max_score : Nat
  percentage : Nat
  status : String
  issues : List String
deriving DecidableEq, Repr

/-- One metrics record, as assembled by `_collect_metrics` and consumed by
`_calculate_cluster_health` and the event differ. -/
structure Metrics where
  namenode_metrics : ServiceHAMetrics
  resourcemanager_metrics : ServiceHAMetrics
  node_metrics : NodeMetrics
  service_metrics : ServiceMetrics
  performance_metrics : PerformanceMetrics
  cluster_health : ClusterHealth
deriving DecidableEq, Repr

/-! ## Health aggregator (`_calculate_cluster_health`, `_identify_issues`) -/

/-- The issue list assembled by `ClusterMonitor._identify_issues`.
Messages are built exactly as in the source, with the float percentage
rendered as its integer part. -/
def identify_issues (m : Metrics) : List String :=
  let nn := m.namenode_metrics
  let rm := m.resourcemanager_metrics
  let node := m.node_metrics
  let svc := m.service_metrics
  let perf := m.performance_metrics
  (if !nn.active_healthy then ["Active NameNode is unhealthy"] else [])
  ++ (if !nn.standby_healthy then ["Standby NameNode is unhealthy"] else [])
  ++ (if nn.active_state ≠ "active" then
        ["Active NameNode is in '" ++ nn.active_state ++ "' state"] else [])
  ++ (if nn.standby_state ≠ "standby" then
        ["Standby NameNode is in '" ++ nn.standby_state ++ "' state"] else [])
  ++ (if !rm.active_healthy then ["Active ResourceManager is unhealthy"] else [])
  ++ (if !rm.standby_healthy then ["Standby ResourceManager is unhealthy"] else [])
  ++ (if rm.active_state ≠ "active" then
        ["Active ResourceManager is in '" ++ rm.active_state ++ "' state"] else [])
  ++ (if rm.standby_state ≠ "standby" then
        ["Standby ResourceManager is in '" ++ rm.standby_state ++ "' state"] else [])
  ++ (if node.total_datanodes - node.healthy_datanodes > 0 then
        [toString (node.total_datanodes - node.healthy_datanodes)
          ++ " DataNode(s) are unhealthy"] else [])
  ++ (if node.total_nodemanagers - node.healthy_nodemanagers > 0 then
        [toString (node.total_nodemanagers - node.healthy_nodemanagers)
          ++ " NodeManager(s) are unhealthy"] else [])
  ++ (if node.total_journalnodes - node.healthy_journalnodes > 0 then
        [toString (node.total_journalnodes - node.healthy_journalnodes)
          ++ " JournalNode(s) are unhealthy"] else [])
  ++ (if !svc.historyserver_healthy then ["History Server is unhealthy"] else [])
  ++ (if !svc.hive_healthy then ["Hive WebUI is unhealthy"] else [])
  ++ (if perf.total_memory > 0 &&
        100 * perf.allocated_memory > 90 * perf.total_memory then
        ["High memory usage: "
          ++ toString (100 * perf.allocated_memory / perf.total_memory) ++ "%"]
      else [])
  ++ (if perf.pending_apps > 5 then
        [toString perf.pending_apps ++ " applications are pending"] else [])

/-- The status bucket chosen at the end of `_calculate_cluster_health`.
Since `max_score = 100`, the float `health_percentage` equals the integer
score exactly, so the thresholds compare the score itself. -/
def health_status (score : Nat) : String :=
  if score ≥ 90 then "excellent"
  else if score ≥ 75 then "good"
  else if score ≥ 50 then "warning"
  else "critical"

/-- `ClusterMonitor._calculate_cluster_health`: sequential accumulation of
the health score followed by the status bucket, exactly as in the source. -/
def calculate_cluster_health (m : Metrics) : ClusterHealth :=
  let nn := m.namenode_metrics
  let rm := m.resourcemanager_metrics
  let node := m.node_metrics
  let svc := m.service_metrics
  let s0 : Nat := 0
  let s1 := s0 + (if nn.active_healthy && nn.active_state == "active" then 15 else 0)
  let s2 := s1 + (if nn.standby_healthy && nn.standby_state == "standby" then 10 else 0)
  let s3 := s2 + (if rm.active_healthy && rm.active_state == "active" then 15 else 0)
  let s4 := s3 + (if rm.standby_healthy && rm.standby_state == "standby" then 10 else 0)
  let s5 := s4 + (if node.total_datanodes > 0 then
      node.healthy_datanodes * 15 / node.total_datanodes else 0)
  let s6 := s5 + (if node.total_nodemanagers > 0 then
      node.healthy_nodemanagers * 15 / node.total_nodemanagers else 0)
  let s7 := s6 + (if svc.historyserver_healthy then 10 else 0)
  let s8 := s7 + (if svc.hive_healthy then 10 else 0)
  { score := s8
    max_score := 100
    percentage := s8
    status := health_status s8
    issues := identify_issues m }

/-! ## Bounded buffers (`_add_to_history`, `_add_log`) and read accessors -/

/-- A log entry as built by `_add_log`: level plus message
(timestamp omitted). -/
structure LogEntry where
  level : String
  message : String
deriving DecidableEq, Repr

/-- `ClusterMonitor.max_history_size` (set in `__init__`). -/
def max_history_size : Nat := 100

/-- `ClusterMonitor.max_logs_size` (set in `__init__`). -/
def max_logs_size : Nat := 200

/-- The Python slice `l[-n:]`: the last `n` elements, except that `l[-0:]`
is the whole list. -/
def py_tail_slice (n : Nat) (l : List α) : List α :=
  if n = 0 then l else l.drop (l.length - n)

/-- Shared shape of `_add_to_history` and `_add_log`: append, then trim to
the last `maxSize` elements when the capacity is exceeded. -/
def add_bounded (maxSize : Nat) (buf : List α) (x : α) : List α :=
  let buf' := buf ++ [x]
  if buf'.length > maxSize then py_tail_slice maxSize buf' else buf'

/-- `ClusterMonitor._add_to_history`. -/
def add_to_history (hist : List Metrics) (m : Metrics) : List Metrics :=
  add_bounded max_history_size hist m

/-- `ClusterMonitor._add_log` (state mutation made explicit; the log entry
is appended with the level and message computed by the caller). -/
def add_log (logs : List LogEntry) (e : LogEntry) : List LogEntry :=
  add_bounded max_logs_size logs e

/-- `ClusterMonitor.get_metrics_history`: `metrics_history[-limit:]` when
the buffer is non-empty, else `[]`. -/
def get_metrics_history (hist : List Metrics) (limit : Nat) : List Metrics :=
  if hist ≠ [] then py_tail_slice limit hist else []

/-- `ClusterMonitor.get_recent_logs`: `logs[-limit:]` when the buffer is
non-empty, else `[]`. -/
def get_recent_logs (logs : List LogEntry) (limit : Nat) : List LogEntry :=
  if logs ≠ [] then py_tail_slice limit logs else []

/-! ## Event differ (`_check_for_events` and helpers)

Each checker is modelled as a pure function returning the list of log
entries that the Python code pushes through `_add_log`, in emission
order. -/

/-- `ClusterMonitor._check_ha_state_changes`. -/
def check_ha_state_changes (current previous : Metrics) : List LogEntry :=
  let cn := current.namenode_metrics
  let pn := previous.namenode_metrics
  let cr := current.resourcemanager_metrics
  let pr := previous.resourcemanager_metrics
  (if cn.active_state ≠ pn.active_state then
      [{ level := "warning"
         message := "NameNode active state changed: "
           ++ pn.active_state ++ " → " ++ cn.active_state }] else [])
  ++ (if cn.standby_state ≠ pn.standby_state then
      [{ level := "warning"
         message := "NameNode standby state changed: "
           ++ pn.standby_state ++ " → " ++ cn.standby_state }] else [])
  ++ (if cr.active_state ≠ pr.active_state then
      [{ level := "warning"
         message := "ResourceManager active state changed: "
           ++ pr.active_state ++ " → " ++ cr.active_state }] else [])
  ++ (if cr.standby_state ≠ pr.standby_state then
      [{ level := "warning"
         message := "ResourceManager standby state changed: "
           ++ pr.standby_state ++ " → " ++ cr.standby_state }] else [])

/-- `ClusterMonitor._check_health_changes`: status-category transition,
then one warning per new issue and one info per resolved issue.  Python
iterates over `set` differences; the set is modelled as deduplication of
the filtered list, which preserves the emitted multiset up to the
unspecified set iteration order. -/
def check_health_changes (current previous : Metrics) : List LogEntry :=
  let ch := current.cluster_health
  let ph := previous.cluster_health
  let status_entries :=
    if ch.status ≠ ph.status then
      [{ level := if ch.status = "warning" ∨ ch.status = "critical"
                  then "error" else "info"
         message := "Cluster health status changed: "
           ++ ph.status ++ " → " ++ ch.status }]
    else []
  let new_issues := (ch.issues.filter (fun i => ¬ i ∈ ph.issues)).dedup
  let resolved_issues := (ph.issues.filter (fun i => ¬ i ∈ ch.issues)).dedup
  status_entries
  ++ new_issues.map (fun i =>
      { level := "warning", message := "New issue detected: " ++ i })
  ++ resolved_issues.map (fun i =>
      { level := "info", message := "Issue resolved: " ++ i })

/-- `ClusterMonitor._check_performance_issues`: thresholds evaluated on the
current snapshot only.  The float comparison `(allocated/total)*100 > 95`
is modelled exactly as `100 * allocated > 95 * total`. -/
def check_performance_issues (current : Metrics) : List LogEntry :=
  let p := current.performance_metrics
  (if p.total_memory > 0 then
    (if 100 * p.allocated_memory > 95 * p.total_memory then
      [{ level := "error"
         message := "Critical memory usage: "
           ++ toString (100 * p.allocated_memory / p.total_memory) ++ "%" }]
     else if 100 * p.allocated_memory > 85 * p.total_memory then
      [{ level := "warning"
         message := "High memory usage: "
           ++ toString (100 * p.allocated_memory / p.total_memory) ++ "%" }]
     else [])
   else [])
  ++ (if p.pending_apps > 10 then
      [{ level := "warning"
         message := "High number of pending applications: "
           ++ toString p.pending_apps }] else [])

/-- `ClusterMonitor._check_for_events` for one cycle with at least two
snapshots in history: the entries emitted by the three checkers, in call
order (`current` is the snapshot just collected, `previous` the one
before it). -/
def check_for_events (current previous : Metrics) : List LogEntry :=
  check_ha_state_changes current previous
  ++ check_health_changes current previous
  ++ check_performance_issues current

/-! ## Failover manager (`failover.py`)

`namenode_failover` and `resourcemanager_failover` are textually identical
up to node names, messages and command text; they are embedded as one
generic workflow instantiated twice with the literal strings of each
variant. -/

/-- The two `is_active` booleans of the pair of status records returned by
`hadoop_client.get_namenode_status` / `get_resourcemanager_status`
(the only fields the failover logic reads). -/
structure HAStatus where
  active_is_active : Bool
  standby_is_active : Bool
deriving DecidableEq, Repr

/-- One `step_result` dict.  The per-step-kind `data` / `command` /
`output` keys become optional fields that are `none` exactly when the
Python dict lacks the key (or still holds its empty initial value). -/
structure StepResult where
  step : String
  success : Bool
  error : Option String := none
  current_active : Option String := none
  current_standby : Option String := none
  active_status : Option HAStatus := none
  standby_status : Option HAStatus := none
  command : Option String := none
  output : Option String := none
  failover_verified : Option Bool := none
  new_active : Option String := none
  new_standby : Option String := none
  attempts : Option Nat := none
  final_status : Option HAStatus := none
deriving DecidableEq, Repr

/-- The top-level `failover_result` dict. -/
structure FailoverResult where
  type : String
  success : Bool
  steps : List StepResult
  error : Option String
deriving DecidableEq, Repr

/-- The literal strings distinguishing the namenode workflow from the
resourcemanager workflow. -/
structure ServiceNames where
  typeName : String
  activeName : String
  standbyName : String
  noActiveMsg : String
  initFailMsg : String
  cmdBase : String
  outputBase : String
deriving DecidableEq, Repr

/-- Strings of the NameNode workflow. -/
def nnNames : ServiceNames :=
  { typeName := "namenode_failover"
    activeName := "active-nn"
    standbyName := "standby-nn"
    noActiveMsg := "No active NameNode found"
    initFailMsg := "Failed to get initial NameNode status"
    cmdBase := "docker exec active-nn /usr/local/hadoop/bin/hdfs haadmin -failover"
    outputBase := "Failover from " }

/-- Strings of the ResourceManager workflow. -/
def rmNames : ServiceNames :=
  { typeName := "resourcemanager_failover"
    activeName := "active-rm"
    standbyName := "standby-rm"
    noActiveMsg := "No active ResourceManager found"
    initFailMsg := "Failed to get initial ResourceManager status"
    cmdBase := "docker exec active-rm /usr/local/hadoop/bin/yarn rmadmin -failover"
    outputBase := "ResourceManager failover from " }

/-- The probe collaborator as the workflow sees it: one status (or raised
exception) for the initial check, and one per verification attempt. -/
structure Env where
  checkProbe : Except String HAStatus
  verifyProbe : Nat → Except String HAStatus

/-- `FailoverManager._check_namenode_status` /
`_check_resourcemanager_status`: the first branch wins when the `active`
slot reports active; the `standby` slot is consulted only otherwise; when
neither reports active the raised no-active exception is caught into the
step's `error`. -/
def check_ha_status (svc : ServiceNames) (probe : Except String HAStatus) :
    StepResult :=
  match probe with
  | .error e => { step := "check_status", success := false, error := some e }
  | .ok st =>
    if st.active_is_active then
      { step := "check_status", success := true
        current_active := some svc.activeName
        current_standby := some svc.standbyName
        active_status := some st, standby_status := some st }
    else if st.standby_is_active then
      { step := "check_status", success := true
        current_active := some svc.standbyName
        current_standby := some svc.activeName
        active_status := some st, standby_status := some st }
    else
      { step := "check_status", success := false, error := some svc.noActiveMsg }

/-- `FailoverManager._execute_namenode_failover` /
`_execute_resourcemanager_failover`: the command execution is simulated
(a sleep), so the try-body always reaches `success = True`. -/
def execute_failover_step (svc : ServiceNames)
    (current_active current_standby : String) (force : Bool) : StepResult :=
  let force_flag := if force then "--forcemanual" else ""
  { step := "execute_failover", success := true
    command := some (svc.cmdBase ++ " " ++ force_flag ++ " "
      ++ current_active ++ " " ++ current_standby)
    output := some (svc.outputBase ++ current_active ++ " to "
      ++ current_standby ++ " initiated") }

/-- `max_attempts` of the verification loop. -/
def max_attempts : Nat := 6

/-- The role-switch condition tested on each verification poll:
`expected_new_active and expected_new_standby` of the source. -/
def switch_condition (svc : ServiceNames) (old_active : String)
    (st : HAStatus) : Bool :=
  if old_active == svc.activeName then
    st.standby_is_active && !st.active_is_active
  else
    st.active_is_active && !st.standby_is_active

/-- The verification polling loop, recursing on the remaining attempts;
`attempt` is the 0-based loop index and `last` the most recently probed
status (used by the exhaustion branch as `final_status`).  A probe
exception aborts the try-body, leaving `data` empty. -/
def verify_go (svc : ServiceNames) (old_active : String)
    (probe : Nat → Except String HAStatus) :
    Nat → Nat → Option HAStatus → StepResult
  | 0, _, last =>
    { step := "verify_failover", success := false
      error := some ("Failover verification failed after "
        ++ toString max_attempts ++ " attempts")
      failover_verified := some false
      final_status := last }
  | remaining + 1, attempt, _ =>
    match probe attempt with
    | .error e => { step := "verify_failover", success := false, error := some e }
    | .ok st =>
      if switch_condition svc old_active st then
        { step := "verify_failover", success := true
          failover_verified := some true
          new_active := some (if old_active == svc.activeName
            then svc.standbyName else svc.activeName)
          new_standby := some old_active
          attempts := some (attempt + 1)
          final_status := some st }
      else
        verify_go svc old_active probe remaining (attempt + 1) (some st)

/-- `FailoverManager._verify_namenode_failover` /
`_verify_resourcemanager_failover`. -/
def verify_failover_step (svc : ServiceNames) (old_active : String)
    (probe : Nat → Except String HAStatus) : StepResult :=
  verify_go svc old_active probe max_attempts 0 none

/-- The terminal step appended by the workflow's `except` handler. -/
def error_step (msg : String) : StepResult :=
  { step := "error", success := false, error := some msg }

/-- `FailoverManager.namenode_failover` / `resourcemanager_failover`: the
three-step workflow; a failed step raises, and the handler records the
message in the result's `error` and appends an error step. -/
def run_failover (svc : ServiceNames) (force : Bool) (env : Env) :
    FailoverResult :=
  let step1 := check_ha_status svc env.checkProbe
  if step1.success then
    let current_active := step1.current_active.getD ""
    let current_standby := step1.current_standby.getD ""
    let step2 := execute_failover_step svc current_active current_standby force
    if step2.success then
      let step3 := verify_failover_step svc current_active env.verifyProbe
      { type := svc.typeName, success := step3.success
        steps := [step1, step2, step3], error := none }
    else
      let msg := "Failover command failed: "
        ++ (step2.error.getD "Unknown error")
      { type := svc.typeName, success := false
        steps := [step1, step2, error_step msg], error := some msg }
  else
    { type := svc.typeName, success := false
      steps := [step1, error_step svc.initFailMsg]
      error := some svc.initFailMsg }

/-- `FailoverManager.namenode_failover`. -/
def namenode_failover (force : Bool) (env : Env) : FailoverResult :=
  run_failover nnNames force env

/-- `FailoverManager.resourcemanager_failover`. -/
def resourcemanager_failover (force : Bool) (env : Env) : FailoverResult :=
  run_failover rmNames force env

/-! ## Helper lemmas -/

/-- Each per-node-class contribution to the health score is at most its
15-point budget when the healthy count does not exceed the total. -/
lemma div15_le (h t : Nat) (hle : h ≤ t) : h * 15 / t ≤ 15 := by
  rcases Nat.eq_zero_or_pos t with ht | ht
  · subst ht
    simp [Nat.le_zero.mp hle]
  · calc h * 15 / t ≤ t * 15 / t :=
        Nat.div_le_div_right (Nat.mul_le_mul_right 15 hle)
    _ = 15 := Nat.mul_div_cancel_left 15 ht

/-- The status bucket is determined by the score thresholds, with exact
boundary behaviour. -/
lemma health_status_spec (s : Nat) :
    (health_status s = "excellent" ↔ 90 ≤ s) ∧
    (health_status s = "good" ↔ 75 ≤ s ∧ s < 90) ∧
    (health_status s = "warning" ↔ 50 ≤ s ∧ s < 75) ∧
    (health_status s = "critical" ↔ s < 50) := by
  unfold health_status
  split_ifs with h1 h2 h3 <;>
    refine ⟨?_, ?_, ?_, ?_⟩ <;>
    first
      | exact iff_of_true rfl (by omega)
      | exact iff_of_false (by decide) (by omega)

/-- A quiet all-healthy metrics record used as a concrete witness input. -/
def sampleMetrics : Metrics :=
  { namenode_metrics := ⟨true, true, "active", "standby"⟩
    resourcemanager_metrics := ⟨true, true, "active", "standby"⟩
    node_metrics := ⟨3, 3, 3, 3, 3, 3⟩
    service_metrics := ⟨true, true⟩
    performance_metrics := ⟨100, 10, 0⟩
    cluster_health := ⟨100, 100, 100, "excellent", []⟩ }

/-! ## Claim theorems -/

/-- C2: for every metrics record whose per-class healthy counts do not
exceed the class totals (as holds for every record `_collect_metrics`
builds), the health score lies in [0, 100] and the status bucket is
determined exactly by the thresholds: ≥ 90 excellent, 75–89 good, 50–74
warning (so 50 is warning and 49 is critical), < 50 critical. -/
theorem health_score_bounds_and_status (m : Metrics)
    (hd : m.node_metrics.healthy_datanodes ≤ m.node_metrics.total_datanodes)
    (hn : m.node_metrics.healthy_nodemanagers ≤ m.node_metrics.total_nodemanagers) :
    0 ≤ (calculate_cluster_health m).score ∧
    (calculate_cluster_health m).score ≤ 100 ∧
    ((calculate_cluster_health m).status = "excellent" ↔
      90 ≤ (calculate_cluster_health m).score) ∧
    ((calculate_cluster_health m).status = "good" ↔
      75 ≤ (calculate_cluster_health m).score ∧ (calculate_cluster_health m).score < 90) ∧
    ((calculate_cluster_health m).status = "warning" ↔
      50 ≤ (calculate_cluster_health m).score ∧ (calculate_cluster_health m).score < 75) ∧
    ((calculate_cluster_health m).status = "critical" ↔
      (calculate_cluster_health m).score < 50) := by
  have hb : (calculate_cluster_health m).score ≤ 100 := by
    have e1 : (if m.node_metrics.total_datanodes > 0 then
        m.node_metrics.healthy_datanodes * 15 / m.node_metrics.total_datanodes
        else 0) ≤ 15 := by
      split
      · exact div15_le _ _ hd
      · omega
    have e2 : (if m.node_metrics.total_nodemanagers > 0 then
        m.node_metrics.healthy_nodemanagers * 15 / m.node_metrics.total_nodemanagers
        else 0) ≤ 15 := by
      split
      · exact div15_le _ _ hn
      · omega
    simp only [calculate_cluster_health]
    split_ifs at * <;> omega
  have hstat : (calculate_cluster_health m).status =
      health_status (calculate_cluster_health m).score := rfl
  have hs := health_status_spec (calculate_cluster_health m).score
  exact ⟨Nat.zero_le _, hb, hstat ▸ hs.1, hstat ▸ hs.2.1,
    hstat ▸ hs.2.2.1, hstat ▸ hs.2.2.2⟩

/-- C2 witness: the claim theorem applied to the concrete all-healthy
record. -/
theorem health_score_bounds_and_status_witness :
    (calculate_cluster_health sampleMetrics).score ≤ 100 ∧
    ((calculate_cluster_health sampleMetrics).status = "excellent" ↔
      90 ≤ (calculate_cluster_health sampleMetrics).score) :=
  have h := health_score_bounds_and_status sampleMetrics (by decide) (by decide)
  ⟨h.2.1, h.2.2.1⟩

/-- C3: the health score decomposes as the stated sum — 15/10 for the
NameNode active/standby slots being healthy in the right state, 15/10
likewise for the ResourceManager, a floored proportional share of 15 per
worker-node class when its total is positive, and 10 per reachable
auxiliary service. -/
theorem health_score_decomposition (m : Metrics) :
    (calculate_cluster_health m).score =
      (if m.namenode_metrics.active_healthy
          && m.namenode_metrics.active_state == "active" then 15 else 0)
      + (if m.namenode_metrics.standby_healthy
          && m.namenode_metrics.standby_state == "standby" then 10 else 0)
      + (if m.resourcemanager_metrics.active_healthy
          && m.resourcemanager_metrics.active_state == "active" then 15 else 0)
      + (if m.resourcemanager_metrics.standby_healthy
          && m.resourcemanager_metrics.standby_state == "standby" then 10 else 0)
      + (if m.node_metrics.total_datanodes > 0 then
          m.node_metrics.healthy_datanodes * 15 / m.node_metrics.total_datanodes
         else 0)
      + (if m.node_metrics.total_nodemanagers > 0 then
          m.node_metrics.healthy_nodemanagers * 15 / m.node_metrics.total_nodemanagers
         else 0)
      + (if m.service_metrics.historyserver_healthy then 10 else 0)
      + (if m.service_metrics.hive_healthy then 10 else 0) := by
  simp only [calculate_cluster_health]
  omega

/-- One bounded append starting from the last `maxSize` elements of `l`
yields the last `maxSize` elements of `l ++ [a]`. -/
lemma add_bounded_tail {α : Type} (maxSize : Nat) (hpos : 0 < maxSize)
    (l : List α) (a : α) :
    add_bounded maxSize (l.drop (l.length - maxSize)) a
      = (l ++ [a]).drop ((l ++ [a]).length - maxSize) := by
  have hdl : (l.drop (l.length - maxSize)).length
      = l.length - (l.length - maxSize) := List.length_drop _ _
  have hal : (l ++ [a]).length = l.length + 1 := by simp
  by_cases hc : l.length < maxSize
  · have h0 : l.length - maxSize = 0 := by omega
    have h1 : (l ++ [a]).length - maxSize = 0 := by omega
    simp only [add_bounded, h0, List.drop_zero, h1]
    rw [if_neg (by omega : ¬ (l ++ [a]).length > maxSize)]
  · push_neg at hc
    have hbl : (l.drop (l.length - maxSize) ++ [a]).length = maxSize + 1 := by
      simp only [List.length_append, List.length_singleton, hdl]
      omega
    simp only [add_bounded]
    rw [if_pos (by omega :
      (l.drop (l.length - maxSize) ++ [a]).length > maxSize)]
    unfold py_tail_slice
    rw [if_neg (by omega : ¬ maxSize = 0), hbl]
    rw [(by omega : maxSize + 1 - maxSize = 1)]
    rw [List.drop_append_of_le_length
      (by omega : 1 ≤ (l.drop (l.length - maxSize)).length)]
    rw [List.drop_drop]
    rw [List.drop_append_of_le_length
      (by rw [hal]; omega : (l ++ [a]).length - maxSize ≤ l.length)]
    rw [(by rw [hal]; omega :
      l.length - maxSize + 1 = (l ++ [a]).length - maxSize)]

/-- Folding bounded appends from the empty buffer keeps exactly the last
`maxSize` elements of the appended sequence. -/
lemma foldl_add_bounded {α : Type} (maxSize : Nat) (hpos : 0 < maxSize)
    (xs : List α) :
    List.foldl (add_bounded maxSize) [] xs = xs.drop (xs.length - maxSize) := by
  induction xs using List.reverseRecOn with
  | nil => simp
  | append_singleton l a ih =>
    rw [List.foldl_append, ih]
    simp only [List.foldl_cons, List.foldl_nil]
    exact add_bounded_tail maxSize hpos l a

/-- C4: after any finite sequence of appends starting from the empty
buffers, the history buffer holds at most `max_history_size` (100) entries
and the log buffer at most `max_logs_size` (200); the survivors are
exactly the most recent appends in insertion order (FIFO eviction of the
oldest). -/
theorem buffers_bounded_fifo (ms : List Metrics) (ls : List LogEntry) :
    (List.foldl add_to_history [] ms).length ≤ max_history_size ∧
    List.foldl add_to_history [] ms = ms.drop (ms.length - max_history_size) ∧
    (List.foldl add_log [] ls).length ≤ max_logs_size ∧
    List.foldl add_log [] ls = ls.drop (ls.length - max_logs_size) := by
  have h1 : List.foldl add_to_history [] ms
      = ms.drop (ms.length - max_history_size) :=
    foldl_add_bounded max_history_size (by decide) ms
  have h2 : List.foldl add_log [] ls
      = ls.drop (ls.length - max_logs_size) :=
    foldl_add_bounded max_logs_size (by decide) ls
  refine ⟨?_, h1, ?_, h2⟩
  · rw [h1, List.length_drop]
    omega
  · rw [h2, List.length_drop]
    omega

/-- A sample log entry used as a concrete witness input. -/
def sampleLog : LogEntry := ⟨"info", "sample"⟩

/-- C10: with `limit = 0` on a non-empty buffer both accessors return the
whole buffer (the Python slice `[-0:]` is the whole list); with
`limit ≥ 1` they return the last `min limit length` entries in insertion
order, most recent last. -/
theorem accessors_limit_semantics (hist : List Metrics) (logs : List LogEntry)
    (limit : Nat) :
    (hist ≠ [] → get_metrics_history hist 0 = hist) ∧
    (1 ≤ limit →
      get_metrics_history hist limit = hist.drop (hist.length - limit) ∧
      (get_metrics_history hist limit).length = min limit hist.length) ∧
    (logs ≠ [] → get_recent_logs logs 0 = logs) ∧
    (1 ≤ limit →
      get_recent_logs logs limit = logs.drop (logs.length - limit) ∧
      (get_recent_logs logs limit).length = min limit logs.length) := by
  refine ⟨?_, ?_, ?_, ?_⟩
  · intro h
    simp [get_metrics_history, py_tail_slice, h]
  · intro h
    by_cases hh : hist = []
    · subst hh
      refine ⟨by simp [get_metrics_history], ?_⟩
      simp [get_metrics_history]
    · have he : get_metrics_history hist limit
          = hist.drop (hist.length - limit) := by
        unfold get_metrics_history py_tail_slice
        rw [if_pos hh, if_neg (by omega : ¬ limit = 0)]
      refine ⟨he, ?_⟩
      rw [he, List.length_drop]
      omega
  · intro h
    simp [get_recent_logs, py_tail_slice, h]
  · intro h
    by_cases hh : logs = []
    · subst hh
      refine ⟨by simp [get_recent_logs], ?_⟩
      simp [get_recent_logs]
    · have he : get_recent_logs logs limit
          = logs.drop (logs.length - limit) := by
        unfold get_recent_logs py_tail_slice
        rw [if_pos hh, if_neg (by omega : ¬ limit = 0)]
      refine ⟨he, ?_⟩
      rw [he, List.length_drop]
      omega

/-- C10 witness: the claim theorem applied to concrete one-element
buffers with limits 0 and 1. -/
theorem accessors_limit_semantics_witness :
    get_metrics_history [sampleMetrics] 0 = [sampleMetrics] ∧
    (get_recent_logs [sampleLog] 1).length = min 1 [sampleLog].length :=
  have h := accessors_limit_semantics [sampleMetrics] [sampleLog] 1
  ⟨h.1 (by simp), (h.2.2.2 (by omega)).2⟩

/-- Every result of the verification loop is a `verify_failover` step. -/
lemma verify_go_step (svc : ServiceNames) (old_active : String)
    (probe : Nat → Except String HAStatus) :
    ∀ remaining attempt last,
      (verify_go svc old_active probe remaining attempt last).step
        = "verify_failover"
  | 0, _, _ => rfl
  | remaining + 1, attempt, last => by
    unfold verify_go
    cases probe attempt with
    | error e => rfl
    | ok st =>
      by_cases h : switch_condition svc old_active st
      · simp [h]
      · simp only [h, Bool.false_eq_true, if_false]
        exact verify_go_step svc old_active probe remaining (attempt + 1) (some st)

/-- The verification step of any workflow is a `verify_failover` step. -/
lemma verify_failover_step_step (svc : ServiceNames) (old_active : String)
    (probe : Nat → Except String HAStatus) :
    (verify_failover_step svc old_active probe).step = "verify_failover" :=
  verify_go_step svc old_active probe max_attempts 0 none

/-- A probe environment in which neither slot reports active. -/
def envNoActive : Env :=
  ⟨Except.ok ⟨false, false⟩, fun _ => Except.ok ⟨false, false⟩⟩

/-- A probe environment in which the `active` slot reports active and
never relinquishes the role, so verification can never succeed. -/
def envStuck : Env :=
  ⟨Except.ok ⟨true, false⟩, fun _ => Except.ok ⟨true, false⟩⟩

/-- The last element of a two-element list. -/
lemma getLast?_two {α : Type} (a b : α) : ([a, b] : List α).getLast? = some b :=
  rfl

/-- The last element of a three-element list. -/
lemma getLast?_three {α : Type} (a b c : α) : [a, b, c].getLast? = some c :=
  rfl

/-- Shape of the workflow result when the initial check step fails: the
raised exception is caught, recorded in `error`, and appended as a
terminal error step. -/
lemma run_failover_of_check_fail (svc : ServiceNames) (force : Bool)
    (env : Env) (hb : (check_ha_status svc env.checkProbe).success = false) :
    run_failover svc force env =
      { type := svc.typeName, success := false
        steps := [check_ha_status svc env.checkProbe,
          error_step svc.initFailMsg]
        error := some svc.initFailMsg } := by
  simp only [run_failover]
  rw [hb]
  rfl

/-- Shape of the workflow result when the initial check step succeeds:
all three steps are recorded and the overall success is that of the
verification step. -/
lemma run_failover_of_check_ok (svc : ServiceNames) (force : Bool)
    (env : Env) (hb : (check_ha_status svc env.checkProbe).success = true) :
    run_failover svc force env =
      { type := svc.typeName
        success := (verify_failover_step svc
          ((check_ha_status svc env.checkProbe).current_active.getD "")
          env.verifyProbe).success
        steps := [check_ha_status svc env.checkProbe,
          execute_failover_step svc
            ((check_ha_status svc env.checkProbe).current_active.getD "")
            ((check_ha_status svc env.checkProbe).current_standby.getD "") force,
          verify_failover_step svc
            ((check_ha_status svc env.checkProbe).current_active.getD "")
            env.verifyProbe]
        error := none } := by
  simp only [run_failover]
  rw [hb]
  rfl

/-- C1: for every failover workflow run (either service, any force flag,
any probe behaviour), `success` is true iff the last recorded step is a
verification step that succeeded; and either no exception occurred
(`error = none`) or the raised message is recorded in `error` and as a
terminal error-kind step — the workflow is a total function, so no error
ever propagates to the caller. -/
theorem failover_success_iff_verify (svc : ServiceNames) (force : Bool)
    (env : Env) :
    ((run_failover svc force env).success = true ↔
      ∃ s, (run_failover svc force env).steps.getLast? = some s ∧
        s.step = "verify_failover" ∧ s.success = true) ∧
    ((run_failover svc force env).error = none ∨
      ∃ msg, (run_failover svc force env).error = some msg ∧
        (run_failover svc force env).steps.getLast? = some (error_step msg)) := by
  cases hb : (check_ha_status svc env.checkProbe).success with
  | false =>
    rw [run_failover_of_check_fail svc force env hb]
    dsimp only
    rw [getLast?_two]
    constructor
    · constructor
      · intro h
        exact absurd h (by decide)
      · rintro ⟨s, hs, hstep, _⟩
        rw [← Option.some_inj.mp hs] at hstep
        have h2 : ("error" : String) = "verify_failover" := hstep
        exact absurd h2 (by decide)
    · exact Or.inr ⟨svc.initFailMsg, rfl, rfl⟩
  | true =>
    rw [run_failover_of_check_ok svc force env hb]
    dsimp only
    rw [getLast?_three]
    refine ⟨?_, Or.inl rfl⟩
    constructor
    · intro h
      exact ⟨_, rfl, verify_failover_step_step svc _ _, h⟩
    · rintro ⟨s, hs, _, hsucc⟩
      rw [← Option.some_inj.mp hs] at hsucc
      exact hsucc

/-- C5 counterexample: when both slots report active the check step
succeeds (the `elif` never fires), choosing the `active` slot as current
active — the claim requires failure unless exactly one slot is active. -/
theorem check_status_both_active_succeeds :
    (check_ha_status nnNames (Except.ok ⟨true, true⟩)).success = true ∧
    (check_ha_status nnNames (Except.ok ⟨true, true⟩)).current_active
      = some "active-nn" :=
  ⟨rfl, rfl⟩

/-- C5 amended: given a returned pair of status records, the check step
succeeds iff at least one slot reports active; when neither does it fails
with the no-active error; when the `active` slot reports active (even if
both do) that slot is captured as current active, and only otherwise the
standby slot is. -/
theorem check_status_spec (svc : ServiceNames) (st : HAStatus) :
    ((check_ha_status svc (Except.ok st)).success
      = (st.active_is_active || st.standby_is_active)) ∧
    (st.active_is_active = false → st.standby_is_active = false →
      (check_ha_status svc (Except.ok st)).error = some svc.noActiveMsg) ∧
    (st.active_is_active = true →
      (check_ha_status svc (Except.ok st)).current_active = some svc.activeName ∧
      (check_ha_status svc (Except.ok st)).current_standby = some svc.standbyName) ∧
    (st.active_is_active = false → st.standby_is_active = true →
      (check_ha_status svc (Except.ok st)).current_active = some svc.standbyName ∧
      (check_ha_status svc (Except.ok st)).current_standby = some svc.activeName) := by
  obtain ⟨a, b⟩ := st
  cases a <;> cases b <;> simp [check_ha_status]

/-- C5 witness: the amended claim applied to the record where only the
standby slot reports active. -/
theorem check_status_spec_witness :
    (check_ha_status nnNames (Except.ok ⟨false, true⟩)).current_active
      = some "standby-nn" ∧
    (check_ha_status nnNames (Except.ok ⟨false, true⟩)).success
      = (false || true) :=
  have h := check_status_spec nnNames ⟨false, true⟩
  ⟨(h.2.2.2 rfl rfl).1, h.1⟩

/-- C6 counterexample: with both records inactive, the workflow records
TWO steps (the failed check step plus the terminal error step), not
exactly one as claimed. -/
theorem step1_failure_steps_counterexample :
    (namenode_failover false envNoActive).success = false ∧
    (namenode_failover false envNoActive).steps.length = 2 ∧
    (namenode_failover false envNoActive).error
      = some "Failed to get initial NameNode status" :=
  ⟨rfl, rfl, rfl⟩

/-- C6 amended: if step 1 fails, the workflow returns success=false,
exactly two recorded steps (the failed check step and the appended error
step), and a non-empty error message. -/
theorem step1_failure_result (svc : ServiceNames) (force : Bool) (env : Env)
    (hb : (check_ha_status svc env.checkProbe).success = false) :
    (run_failover svc force env).success = false ∧
    (run_failover svc force env).steps.length = 2 ∧
    (run_failover svc force env).error = some svc.initFailMsg := by
  rw [run_failover_of_check_fail svc force env hb]
  exact ⟨rfl, rfl, rfl⟩

/-- C6 witness: the amended claim applied to the both-inactive probe
environment. -/
theorem step1_failure_result_witness :
    (run_failover nnNames false envNoActive).success = false ∧
    (run_failover nnNames false envNoActive).steps.length = 2 ∧
    (run_failover nnNames false envNoActive).error = some nnNames.initFailMsg :=
  step1_failure_result nnNames false envNoActive (by decide)

/-- One unsuccessful poll of the verification loop moves to the next
attempt, remembering the observed status. -/
lemma verify_go_step_fail (svc : ServiceNames) (oa : String)
    (probe : Nat → Except String HAStatus) (sts : Nat → HAStatus)
    (r a : Nat) (l : Option HAStatus)
    (hp : probe a = Except.ok (sts a))
    (hs : switch_condition svc oa (sts a) = false) :
    verify_go svc oa probe (r + 1) a l
      = verify_go svc oa probe r (a + 1) (some (sts a)) := by
  simp only [verify_go]
  rw [hp]
  simp [hs]

/-- If none of the six polls meets the switch condition, the verification
step is the exhaustion record: unsuccessful, the budget in the error
message, `failover_verified := false` and the last observed status in
`data` — and no attempt count in `data`. -/
lemma verify_go_exhaust (svc : ServiceNames) (oa : String)
    (probe : Nat → Except String HAStatus) (sts : Nat → HAStatus)
    (hv : ∀ i, i < max_attempts → probe i = Except.ok (sts i) ∧
      switch_condition svc oa (sts i) = false) :
    verify_failover_step svc oa probe =
      { step := "verify_failover", success := false
        error := some ("Failover verification failed after "
          ++ toString max_attempts ++ " attempts")
        failover_verified := some false
        final_status := some (sts 5) } := by
  have h0 := hv 0 (by decide)
  have h1 := hv 1 (by decide)
  have h2 := hv 2 (by decide)
  have h3 := hv 3 (by decide)
  have h4 := hv 4 (by decide)
  have h5 := hv 5 (by decide)
  unfold verify_failover_step
  calc verify_go svc oa probe max_attempts 0 none
      = verify_go svc oa probe 5 1 (some (sts 0)) :=
        verify_go_step_fail svc oa probe sts 5 0 none h0.1 h0.2
    _ = verify_go svc oa probe 4 2 (some (sts 1)) :=
        verify_go_step_fail svc oa probe sts 4 1 _ h1.1 h1.2
    _ = verify_go svc oa probe 3 3 (some (sts 2)) :=
        verify_go_step_fail svc oa probe sts 3 2 _ h2.1 h2.2
    _ = verify_go svc oa probe 2 4 (some (sts 3)) :=
        verify_go_step_fail svc oa probe sts 2 3 _ h3.1 h3.2
    _ = verify_go svc oa probe 1 5 (some (sts 4)) :=
        verify_go_step_fail svc oa probe sts 1 4 _ h4.1 h4.2
    _ = verify_go svc oa probe 0 6 (some (sts 5)) :=
        verify_go_step_fail svc oa probe sts 0 5 _ h5.1 h5.2
    _ = _ := rfl

/-- C7 counterexample: on exhaustion of the attempt budget, the
verification step's data holds NO attempt count (only the error message
mentions the budget), refuting the claim that data records the attempts
used. -/
theorem verify_exhaustion_no_attempts_in_data :
    (namenode_failover false envStuck).success = false ∧
    ((namenode_failover false envStuck).steps.getLast?.bind
      StepResult.attempts) = none ∧
    ((namenode_failover false envStuck).steps.getLast?.map
      StepResult.success) = some false ∧
    ((namenode_failover false envStuck).steps.getLast?.bind
      StepResult.error)
      = some "Failover verification failed after 6 attempts" := by
  decide

/-- A probe environment in which only the `standby` slot reports active
and never relinquishes the role, so verification can never succeed. -/
def envStuckStandby : Env :=
  ⟨Except.ok ⟨false, true⟩, fun _ => Except.ok ⟨false, true⟩⟩

/-- C7 amended: if the check step succeeds (at least one slot reports
active — either slot may be the one) and all six verification polls
return statuses never meeting the switch condition for the determined
current-active node, the workflow returns success=false and the
verification step is an ordinary unsuccessful step whose error message
records the attempt budget and whose data records
`failover_verified = false` together with the final observed status (no
exception is raised; no attempt count is stored in data). -/
theorem verify_exhaustion_result (svc : ServiceNames) (force : Bool)
    (env : Env) (sts : Nat → HAStatus) (cst : HAStatus)
    (hc : env.checkProbe = Except.ok cst)
    (hcs : cst.active_is_active = true ∨ cst.standby_is_active = true)
    (hv : ∀ i, i < max_attempts →
      env.verifyProbe i = Except.ok (sts i) ∧
      switch_condition svc
        ((check_ha_status svc env.checkProbe).current_active.getD "")
        (sts i) = false) :
    (run_failover svc force env).success = false ∧
    (run_failover svc force env).steps.length = 3 ∧
    (run_failover svc force env).steps.getLast? = some
      { step := "verify_failover", success := false
        error := some ("Failover verification failed after "
          ++ toString max_attempts ++ " attempts")
        failover_verified := some false
        final_status := some (sts 5) } := by
  have hb : (check_ha_status svc env.checkProbe).success = true := by
    rw [hc]
    rcases hcs with h | h
    · simp [check_ha_status, h]
    · cases ha : cst.active_is_active <;> simp [check_ha_status, ha, h]
  have hver := verify_go_exhaust svc
    ((check_ha_status svc env.checkProbe).current_active.getD "")
    env.verifyProbe sts hv
  rw [run_failover_of_check_ok svc force env hb]
  dsimp only
  rw [getLast?_three, hver]
  exact ⟨rfl, rfl, rfl⟩

/-- C7 witness: the amended claim applied to the environment whose
standby slot holds the active role and never relinquishes it — the case
where the check step finds the standby slot active. -/
theorem verify_exhaustion_result_witness :
    (run_failover nnNames false envStuckStandby).success = false ∧
    (run_failover nnNames false envStuckStandby).steps.length = 3 ∧
    (run_failover nnNames false envStuckStandby).steps.getLast? = some
      { step := "verify_failover", success := false
        error := some ("Failover verification failed after "
          ++ toString max_attempts ++ " attempts")
        failover_verified := some false
        final_status := some ⟨false, true⟩ } :=
  verify_exhaustion_result nnNames false envStuckStandby
    (fun _ => ⟨false, true⟩) ⟨false, true⟩ rfl (Or.inr rfl)
    (fun _ _ => ⟨rfl, rfl⟩)

/-- C9: the execute-failover step always succeeds (its command execution
is simulated), so the command-failure abort path is dead: whenever a run
ends in a terminal error step, it is the two-step check-failure shape —
the three-step shape always ends in a verification step. -/
theorem execute_step_unreachable_abort (svc : ServiceNames)
    (ca cs : String) (force : Bool) (env : Env) :
    (execute_failover_step svc ca cs force).success = true ∧
    ((run_failover svc force env).steps.getLast?.map StepResult.step
        = some "error" →
      (run_failover svc force env).steps.length = 2) := by
  refine ⟨rfl, ?_⟩
  cases hb : (check_ha_status svc env.checkProbe).success with
  | false =>
    intro _
    rw [run_failover_of_check_fail svc force env hb]
    rfl
  | true =>
    intro hlast
    rw [run_failover_of_check_ok svc force env hb] at hlast
    dsimp only at hlast
    rw [getLast?_three] at hlast
    simp only [Option.map_some'] at hlast
    have h2 : ("verify_failover" : String) = "error" := by
      rw [← verify_failover_step_step svc
        ((check_ha_status svc env.checkProbe).current_active.getD "")
        env.verifyProbe]
      exact Option.some_inj.mp hlast
    exact absurd h2 (by decide)

/-- C9 witness: the claim applied to the both-inactive environment, whose
run does end in an error step with two steps recorded. -/
theorem execute_step_unreachable_abort_witness :
    (execute_failover_step nnNames "active-nn" "standby-nn" false).success
      = true ∧
    (run_failover nnNames false envNoActive).steps.length = 2 :=
  have h := execute_step_unreachable_abort nnNames "active-nn" "standby-nn"
    false envNoActive
  ⟨h.1, h.2 (by decide)⟩

/-- Filtering a list by non-membership in itself yields nothing. -/
lemma filter_not_mem_self {α : Type} [DecidableEq α] (l : List α) :
    l.filter (fun i => ¬ i ∈ l) = [] := by
  rw [List.filter_eq_nil_iff]
  intro a ha
  simp [ha]

/-- With no performance threshold tripped, the performance checker is
silent. -/
lemma perf_quiet (s : Metrics)
    (hmem : 100 * s.performance_metrics.allocated_memory
        ≤ 85 * s.performance_metrics.total_memory ∨
      s.performance_metrics.total_memory = 0)
    (hpend : s.performance_metrics.pending_apps ≤ 10) :
    check_performance_issues s = [] := by
  simp only [check_performance_issues]
  rw [if_neg (show ¬ s.performance_metrics.pending_apps > 10 from by omega)]
  rw [List.append_nil]
  by_cases ht : s.performance_metrics.total_memory > 0
  · rcases hmem with hm | hm
    · rw [if_pos ht,
        if_neg (show ¬ 100 * s.performance_metrics.allocated_memory
          > 95 * s.performance_metrics.total_memory from by omega),
        if_neg (show ¬ 100 * s.performance_metrics.allocated_memory
          > 85 * s.performance_metrics.total_memory from by omega)]
    · exact absurd ht (by omega)
  · rw [if_neg ht]

/-- Any change in a per-service reported state makes the HA-state checker
emit at least one entry. -/
lemma ha_changes_ne_nil (cur prev : Metrics)
    (h : cur.namenode_metrics.active_state ≠ prev.namenode_metrics.active_state ∨
      cur.namenode_metrics.standby_state ≠ prev.namenode_metrics.standby_state ∨
      cur.resourcemanager_metrics.active_state
        ≠ prev.resourcemanager_metrics.active_state ∨
      cur.resourcemanager_metrics.standby_state
        ≠ prev.resourcemanager_metrics.standby_state) :
    check_ha_state_changes cur prev ≠ [] := by
  simp only [check_ha_state_changes]
  intro hEq
  rcases List.append_eq_nil.mp hEq with ⟨hABC, hD⟩
  rcases List.append_eq_nil.mp hABC with ⟨hAB, hC⟩
  rcases List.append_eq_nil.mp hAB with ⟨hA, hB⟩
  rcases h with h | h | h | h
  · rw [if_pos h] at hA
    exact absurd hA (by simp)
  · rw [if_pos h] at hB
    exact absurd hB (by simp)
  · rw [if_pos h] at hC
    exact absurd hC (by simp)
  · rw [if_pos h] at hD
    exact absurd hD (by simp)

/-- An element of `l` outside `lref` forces the mapped deduplicated
filtered difference list to be non-empty. -/
lemma one_le_length_map_dedup_filter {α β : Type} [DecidableEq α]
    (l lref : List α) (f : α → β) (i : α)
    (hi : i ∈ l) (hni : ¬ i ∈ lref) :
    1 ≤ ((l.filter (fun j => ¬ j ∈ lref)).dedup.map f).length := by
  have h1 : i ∈ l.filter (fun j => ¬ j ∈ lref) :=
    List.mem_filter.mpr ⟨hi, by simp [hni]⟩
  have h2 : i ∈ (l.filter (fun j => ¬ j ∈ lref)).dedup :=
    List.mem_dedup.mpr h1
  have h3 := List.mem_map_of_mem f h2
  exact List.length_pos.mpr (List.ne_nil_of_mem h3)

/-- The HA-state checker emits at least one entry when any per-service
reported state differs. -/
lemma ha_changes_length (cur prev : Metrics) :
    (check_ha_state_changes cur prev).length ≥
      (if cur.namenode_metrics.active_state
            ≠ prev.namenode_metrics.active_state ∨
          cur.namenode_metrics.standby_state
            ≠ prev.namenode_metrics.standby_state ∨
          cur.resourcemanager_metrics.active_state
            ≠ prev.resourcemanager_metrics.active_state ∨
          cur.resourcemanager_metrics.standby_state
            ≠ prev.resourcemanager_metrics.standby_state
       then 1 else 0) := by
  split_ifs with h
  · exact List.length_pos.mpr (ha_changes_ne_nil cur prev h)
  · omega

/-- The health checker emits at least one entry per differing category
among the overall status and the issue set (in either direction). -/
lemma health_changes_length (cur prev : Metrics) :
    (check_health_changes cur prev).length ≥
      (if cur.cluster_health.status ≠ prev.cluster_health.status
       then 1 else 0)
      + (if (∃ i ∈ cur.cluster_health.issues,
              ¬ i ∈ prev.cluster_health.issues) ∨
            (∃ i ∈ prev.cluster_health.issues,
              ¬ i ∈ cur.cluster_health.issues)
         then 1 else 0) := by
  simp only [check_health_changes, List.length_append]
  by_cases h1 : cur.cluster_health.status ≠ prev.cluster_health.status
  · rw [if_pos h1, if_pos h1]
    by_cases h2 : (∃ i ∈ cur.cluster_health.issues,
          ¬ i ∈ prev.cluster_health.issues) ∨
        (∃ i ∈ prev.cluster_health.issues,
          ¬ i ∈ cur.cluster_health.issues)
    · rw [if_pos h2]
      simp only [List.length_singleton]
      rcases h2 with ⟨i, hi, hni⟩ | ⟨i, hi, hni⟩
      · have a3 := one_le_length_map_dedup_filter
          cur.cluster_health.issues prev.cluster_health.issues
          (fun j => LogEntry.mk "warning" ("New issue detected: " ++ j)) i hi hni
        omega
      · have a3 := one_le_length_map_dedup_filter
          prev.cluster_health.issues cur.cluster_health.issues
          (fun j => LogEntry.mk "info" ("Issue resolved: " ++ j)) i hi hni
        omega
    · rw [if_neg h2]
      simp only [List.length_singleton]
      omega
  · rw [if_neg h1, if_neg h1]
    by_cases h2 : (∃ i ∈ cur.cluster_health.issues,
          ¬ i ∈ prev.cluster_health.issues) ∨
        (∃ i ∈ prev.cluster_health.issues,
          ¬ i ∈ cur.cluster_health.issues)
    · rw [if_pos h2]
      simp only [List.length_nil]
      rcases h2 with ⟨i, hi, hni⟩ | ⟨i, hi, hni⟩
      · have a3 := one_le_length_map_dedup_filter
          cur.cluster_health.issues prev.cluster_health.issues
          (fun j => LogEntry.mk "warning" ("New issue detected: " ++ j)) i hi hni
        omega
      · have a3 := one_le_length_map_dedup_filter
          prev.cluster_health.issues cur.cluster_health.issues
          (fun j => LogEntry.mk "info" ("Issue resolved: " ++ j)) i hi hni
        omega
    · rw [if_neg h2]
      simp only [List.length_nil]
      omega

/-- C8 amended: comparing two identical snapshots emits zero entries
PROVIDED the current snapshot trips no performance threshold (memory at
most 85% or none, pending apps at most 10) — performance checks run on
the current snapshot alone, so a tripped threshold emits entries even for
identical snapshots; and the differ emits at least one entry per distinct
differing field category: its output holds at least as many entries as
there are differing categories among per-service reported state, overall
status category, and the issue set (an issue newly appearing or an issue
resolving). -/
theorem event_differ_diff_spec (s prev cur : Metrics) :
    ((100 * s.performance_metrics.allocated_memory
        ≤ 85 * s.performance_metrics.total_memory ∨
      s.performance_metrics.total_memory = 0) →
     s.performance_metrics.pending_apps ≤ 10 →
     check_for_events s s = []) ∧
    (check_for_events cur prev).length ≥
      (if cur.namenode_metrics.active_state
            ≠ prev.namenode_metrics.active_state ∨
          cur.namenode_metrics.standby_state
            ≠ prev.namenode_metrics.standby_state ∨
          cur.resourcemanager_metrics.active_state
            ≠ prev.resourcemanager_metrics.active_state ∨
          cur.resourcemanager_metrics.standby_state
            ≠ prev.resourcemanager_metrics.standby_state
       then 1 else 0)
      + (if cur.cluster_health.status ≠ prev.cluster_health.status
         then 1 else 0)
      + (if (∃ i ∈ cur.cluster_health.issues,
              ¬ i ∈ prev.cluster_health.issues) ∨
            (∃ i ∈ prev.cluster_health.issues,
              ¬ i ∈ cur.cluster_health.issues)
         then 1 else 0) := by
  constructor
  · intro hmem hpend
    unfold check_for_events
    rw [perf_quiet s hmem hpend, List.append_nil]
    have h1 : check_ha_state_changes s s = [] := by
      simp [check_ha_state_changes]
    have h2 : check_health_changes s s = [] := by
      simp [check_health_changes, filter_not_mem_self]
    rw [h1, h2]
    rfl
  · have f1 := ha_changes_length cur prev
    have f2 := health_changes_length cur prev
    have hlen : (check_for_events cur prev).length =
        (check_ha_state_changes cur prev).length
        + (check_health_changes cur prev).length
        + (check_performance_issues cur).length := by
      simp [check_for_events]
      omega
    omega

/-- A snapshot identical to `sampleMetrics` except that memory allocation
is above the 95% threshold. -/
def hotMetrics : Metrics :=
  { sampleMetrics with performance_metrics := ⟨100, 96, 0⟩ }

/-- A snapshot identical to `sampleMetrics` except for the NameNode
active reported state. -/
def diffMetrics : Metrics :=
  { sampleMetrics with
    namenode_metrics :=
      { sampleMetrics.namenode_metrics with active_state := "standby" } }

/-- C8 counterexample: comparing a snapshot with 96% memory utilisation
against itself emits one (error) entry, refuting the claim that two
identical snapshots always yield zero entries — performance thresholds
are evaluated on the current snapshot only. -/
theorem identical_snapshots_emit_entry :
    check_for_events hotMetrics hotMetrics ≠ [] ∧
    (check_for_events hotMetrics hotMetrics).length = 1 ∧
    (check_for_events hotMetrics hotMetrics).map LogEntry.level
      = ["error"] := by
  decide

/-- C8 witness: the amended claim applied to concrete snapshots — the
quiet snapshot diffed against itself is silent, and the snapshot whose
NameNode active state differs yields at least one emitted entry via the
per-category bound. -/
theorem event_differ_diff_spec_witness :
    check_for_events sampleMetrics sampleMetrics = [] ∧
    1 ≤ (check_for_events diffMetrics sampleMetrics).length := by
  have h := event_differ_diff_spec sampleMetrics sampleMetrics diffMetrics
  exact ⟨h.1 (Or.inl (by decide)) (by decide), le_trans (by decide) h.2⟩

end Dashboard
